import Mathlib

/-!
Shallow embedding of the Payment & Entitlement Reconciliation subsystem of
the fakelive-app repository, covering:

* the database tables `payments`, `premium_status`, `paypal_webhooks`,
  `rate_limits` (workers/api/src/db/schema.ts);
* `checkRateLimit` (workers/api/src/lib/rate-limit.ts);
* the `POST /create-order` and `POST /capture-order` route handlers
  (workers/api/src/routes/payments.ts);
* the `POST /paypal` webhook handler (workers/api/src/routes/webhooks.ts).

Modelling conventions: JavaScript `Date` values are epoch-millisecond
integers (`Int`); currency amounts are integers counted in cents, an exact
fixed-point model of the decimal literals `4.99` / `29.99` and of the
`parseFloat` of the gateway's two-decimal amount string (two-decimal values
parse to equal doubles exactly when they are the same decimal, so equality
tests on them coincide with equality of cent counts); each `await db.…` statement is one atomic store operation,
modelled as a pure function on the database state; the external PayPal
gateway is modelled by the response value a call would return (`none` for a
thrown/`!response.ok` failure), with the handlers additionally reporting
whether a gateway call was issued.
-/

/-- Subscription tier: the `tier` enum `['monthly','yearly']` of the schema. -/
inductive Tier where
  | monthly
  | yearly
deriving DecidableEq, Repr

/-- Payment status: the `status` enum of the `payments` table. -/
inductive PayStatus where
  | pending
  | completed
  | failed
  | refunded
deriving DecidableEq, Repr

/-- TIER_PRICES from payments.ts / webhooks.ts: monthly 4.99, yearly 29.99 USD,
in cents. -/
def tierPrice : Tier → Int
  | .monthly => 499
  | .yearly => 2999

/-- Days added to `now` for the entitlement expiry: `expiresAt.setDate(getDate()+30)`
for monthly, `+365` for yearly. -/
def tierDays : Tier → Int
  | .monthly => 30
  | .yearly => 365

/-- Milliseconds per day; the worker runs in UTC so `setDate (+d)` adds `d` of these. -/
def msPerDay : Int := 86400000

/-- Row of the `payments` table. -/
structure Payment where
  id : String
  userId : String
  paypalOrderId : String
  paypalCaptureId : Option String
  tier : Tier
  amount : Int
  currency : String
  status : PayStatus
  idempotencyKey : String
  createdAt : Int
  completedAt : Option Int
  expiresAt : Option Int
deriving DecidableEq, Repr

/-- Row of the `premium_status` table. -/
structure Premium where
  id : String
  userId : String
  isPremium : Bool
  tier : Option Tier
  startedAt : Option Int
  expiresAt : Option Int
  createdAt : Int
  updatedAt : Int
deriving DecidableEq, Repr

/-- Row of the `paypal_webhooks` table (audit / replay guard). The JSON
`sanitizedData` blob is not modelled field-by-field; it carries no control flow. -/
structure WebhookRow where
  id : String
  transmissionId : String
  transmissionTime : String
  eventType : String
  resourceType : Option String
  paypalOrderId : Option String
  processed : Bool
  processedAt : Option Int
  receivedAt : Int
deriving DecidableEq, Repr

/-- Row of the `rate_limits` table. -/
structure RateLimitRow where
  id : String
  userId : String
  action : String
  attemptedAt : Int
deriving DecidableEq, Repr

/-- The durable store: the four tables the reconciliation core touches. -/
structure DB where
  payments : List Payment
  premium : List Premium
  webhooks : List WebhookRow
  rateLimits : List RateLimitRow
deriving DecidableEq, Repr

/-! ## Rate limiter (lib/rate-limit.ts) -/

/-- checkRateLimit: count rows for (userId, action) with
`attemptedAt > now - windowSeconds*1000` (strict `gt`, no upper bound); if the
count is at least `maxAttempts` return false without writing, otherwise insert
a fresh attempt row (id `attemptId`, `attemptedAt = now`) and return true. -/
def checkRateLimit (db : DB) (userId action : String) (maxAttempts : Nat)
    (windowSeconds : Int) (now : Int) (attemptId : String) : Bool × DB :=
  let windowStart := now - windowSeconds * 1000
  let attempts := db.rateLimits.filter
    (fun r => r.userId == userId && r.action == action && decide (windowStart < r.attemptedAt))
  if maxAttempts ≤ attempts.length then
    (false, db)
  else
    (true, { db with rateLimits := db.rateLimits ++ [⟨attemptId, userId, action, now⟩] })

/-! ## Order creation (POST /create-order, routes/payments.ts) -/

/-- Outcome of the create-order handler, one constructor per `return c.json(...)`. -/
inductive CreateResult where
  | rateLimited
  | invalidTier
  | idempotent (orderId : String) (amount : Int) (tier : Tier)
  | alreadyPremium
  | created (orderId : String) (amount : Int) (tier : Tier)
  | gatewayError
deriving DecidableEq, Repr

/-- HTTP status code of each create-order outcome. -/
def createStatusCode : CreateResult → Nat
  | .rateLimited => 429
  | .invalidTier => 400
  | .idempotent _ _ _ => 200
  | .alreadyPremium => 400
  | .created _ _ _ => 200
  | .gatewayError => 500

/-- Result, post-state and gateway-call flag of one create-order request. -/
structure CreateOut where
  result : CreateResult
  db : DB
  gatewayCalled : Bool
deriving DecidableEq, Repr

/-- POST /create-order. `reqTier` is the parsed request tier (`none` when the
string is outside `['monthly','yearly']`); `idempotencyKey` the client token;
`gw` the PayPal order id `createPayPalOrder` would return (`none`: the call
throws); `attemptId`/`paymentId` the UUIDs drawn for the new rows. Mirrors the
handler's order: rate limit, tier validation, idempotency lookup, premium
guard, gateway call, ledger insert. -/
def createOrder (db : DB) (userId : String) (reqTier : Option Tier)
    (idempotencyKey : String) (now : Int) (attemptId : String)
    (gw : Option String) (paymentId : String) : CreateOut :=
  let rl := checkRateLimit db userId "create_payment" 5 3600 now attemptId
  if !rl.1 then ⟨.rateLimited, rl.2, false⟩
  else
    let db1 := rl.2
    match reqTier with
    | none => ⟨.invalidTier, db1, false⟩
    | some tier =>
      match (db1.payments.filter
          (fun p => p.userId == userId && p.idempotencyKey == idempotencyKey)).head? with
      | some existing =>
        ⟨.idempotent existing.paypalOrderId existing.amount existing.tier, db1, false⟩
      | none =>
        let premiumBlocked :=
          match (db1.premium.filter (fun r => r.userId == userId)).head? with
          | some r =>
            r.isPremium && (match r.expiresAt with
              | some e => decide (now < e)
              | none => false)
          | none => false
        if premiumBlocked then ⟨.alreadyPremium, db1, false⟩
        else
          let amount := tierPrice tier
          match gw with
          | none => ⟨.gatewayError, db1, true⟩
          | some gatewayOrderId =>
            let row : Payment :=
              ⟨paymentId, userId, gatewayOrderId, none, tier, amount, "USD",
                .pending, idempotencyKey, now, none, none⟩
            ⟨.created gatewayOrderId amount tier,
              { db1 with payments := db1.payments ++ [row] }, true⟩

/-! ## Capture (POST /capture-order, routes/payments.ts) -/

/-- Response of `capturePayPalOrder`: `capture.id` and the charged amount
`parseFloat(capture.purchase_units[0].amount.value)`. -/
structure CaptureResp where
  captureId : String
  amount : Int
deriving DecidableEq, Repr

/-- Outcome of the capture handler, one constructor per `return c.json(...)`. -/
inductive CaptureResult where
  | notFound
  | alreadyProcessed
  | amountMismatch
  | success (premiumExpiresAt : Int) (tier : Tier)
  | gatewayError
deriving DecidableEq, Repr

/-- HTTP status code of each capture outcome; `alreadyProcessed` is the 400
`'Payment already processed'` error response. -/
def captureStatusCode : CaptureResult → Nat
  | .notFound => 404
  | .alreadyProcessed => 400
  | .amountMismatch => 400
  | .success _ _ => 200
  | .gatewayError => 500

/-- Result, post-state and gateway-call flag of one capture request. -/
structure CaptureOut where
  result : CaptureResult
  db : DB
  gatewayCalled : Bool
deriving DecidableEq, Repr

/-- Lookup of the payment row by (paypalOrderId, userId), `limit 1`. -/
def findPayment (db : DB) (userId orderId : String) : Option Payment :=
  (db.payments.filter (fun p => p.paypalOrderId == orderId && p.userId == userId)).head?

/-- Atomic store write `update payments set status = s where id = paymentId`. -/
def setPaymentStatus (db : DB) (paymentId : String) (s : PayStatus) : DB :=
  let rows := db.payments.map (fun p =>
    if p.id == paymentId then { p with status := s } else p)
  { db with payments := rows }

/-- Atomic store write marking the payment completed: sets status, capture id,
completedAt and expiresAt, `where id = paymentId`. -/
def markCompleted (db : DB) (paymentId : String) (captureId : Option String)
    (now expiresAt : Int) : DB :=
  let rows := db.payments.map (fun p =>
    if p.id == paymentId then
      { p with status := .completed, paypalCaptureId := captureId,
               completedAt := some now, expiresAt := some expiresAt }
    else p)
  { db with payments := rows }

/-- Premium upsert: select the row for userId, then either update it in place
(isPremium true, new tier/startedAt/expiresAt/updatedAt) or insert a fresh row
with id `freshId`. Two store operations in the source; the select/branch is
read-only so the pair is one observable write. -/
def upsertPremium (db : DB) (userId : String) (tier : Tier) (now expiresAt : Int)
    (freshId : String) : DB :=
  match (db.premium.filter (fun r => r.userId == userId)).head? with
  | some _ =>
    let rows := db.premium.map (fun r =>
      if r.userId == userId then
        { r with isPremium := true, tier := some tier, startedAt := some now,
                 expiresAt := some expiresAt, updatedAt := now }
      else r)
    { db with premium := rows }
  | none =>
    { db with premium := db.premium ++
        [⟨freshId, userId, true, some tier, some now, some expiresAt, now, now⟩] }

/-- POST /capture-order. `gw` is what `capturePayPalOrder` returns (`none`: the
call throws and the catch block answers 500). On a pending row with matching
amount the handler issues two separate store writes: `markCompleted` on the
ledger, then `upsertPremium` on the entitlement — there is no transaction
around them in the source. -/
def captureOrder (db : DB) (userId orderId : String) (now : Int)
    (gw : Option CaptureResp) (freshPremiumId : String) : CaptureOut :=
  match findPayment db userId orderId with
  | none => ⟨.notFound, db, false⟩
  | some p =>
    if p.status ≠ .pending then ⟨.alreadyProcessed, db, false⟩
    else
      match gw with
      | none => ⟨.gatewayError, db, true⟩
      | some cap =>
        if cap.amount ≠ tierPrice p.tier then
          ⟨.amountMismatch, setPaymentStatus db p.id .failed, true⟩
        else
          let expiresAt := now + tierDays p.tier * msPerDay
          let db1 := markCompleted db p.id (some cap.captureId) now expiresAt
          let db2 := upsertPremium db1 userId p.tier now expiresAt freshPremiumId
          ⟨.success expiresAt p.tier, db2, true⟩

/-! ## Webhook reconciliation (POST /paypal, routes/webhooks.ts) -/

/-- Parsed inbound notification: the headers and body fields the handler reads.
`resourceAmount` is `parseFloat(body.resource.amount.value)` (`none` when the
body has no amount — dereferencing it then throws, answered as a 500 after the
audit row is already inserted); `relatedOrderId` is
`body.resource?.supplementary_data?.related_ids?.order_id`. -/
structure WebhookReq where
  transmissionId : Option String
  transmissionTime : Option String
  eventType : String
  resourceType : Option String
  resourceId : Option String
  resourceAmount : Option Int
  relatedOrderId : Option String
deriving DecidableEq, Repr

/-- Outcome of the webhook handler. -/
inductive WebhookResult where
  | badRequest
  | duplicate
  | unauthorized
  | ok
  | serverError
deriving DecidableEq, Repr

/-- HTTP status code of each webhook outcome; `duplicate` is the early
`{status:'ok'}, 200` of the replay guard. -/
def webhookStatusCode : WebhookResult → Nat
  | .badRequest => 400
  | .duplicate => 200
  | .unauthorized => 401
  | .ok => 200
  | .serverError => 500

/-- Atomic insert of the audit row keyed by the transmission id. -/
def insertWebhookRow (db : DB) (tid : String) (req : WebhookReq) (now : Int) : DB :=
  { db with webhooks := db.webhooks ++
      [⟨tid, tid, req.transmissionTime.getD "", req.eventType, req.resourceType,
        req.resourceId, true, some now, now⟩] }

/-- Atomic store write of the refund branch on premium_status:
`isPremium := false, expiresAt := null, updatedAt := now where userId = u`. -/
def revokePremium (db : DB) (userId : String) (now : Int) : DB :=
  let rows := db.premium.map (fun r =>
    if r.userId == userId then
      { r with isPremium := false, expiresAt := none, updatedAt := now }
    else r)
  { db with premium := rows }

/-- Event dispatch of the webhook handler, run after the audit row is
inserted. Returns the post-state and the handler result (always `ok` except
for the amount dereference failure). -/
def dispatchEvent (db : DB) (req : WebhookReq) (now : Int)
    (freshPremiumId : String) : WebhookResult × DB :=
  if req.eventType == "PAYMENT.CAPTURE.COMPLETED" then
    match req.relatedOrderId with
    | none => (.ok, db)
    | some orderId =>
      match (db.payments.filter (fun p => p.paypalOrderId == orderId)).head? with
      | none => (.ok, db)
      | some p =>
        if p.status = .pending then
          match req.resourceAmount with
          | none => (.serverError, db)
          | some actualAmount =>
            if actualAmount = tierPrice p.tier then
              let expiresAt := now + tierDays p.tier * msPerDay
              let db1 := markCompleted db p.id req.resourceId now expiresAt
              let db2 := upsertPremium db1 p.userId p.tier now expiresAt freshPremiumId
              (.ok, db2)
            else
              (.ok, db)
        else (.ok, db)
  else if req.eventType == "PAYMENT.CAPTURE.REFUNDED" then
    match req.relatedOrderId with
    | none => (.ok, db)
    | some orderId =>
      match (db.payments.filter (fun p => p.paypalOrderId == orderId)).head? with
      | none => (.ok, db)
      | some p =>
        let db1 := setPaymentStatus db p.id .refunded
        let db2 := revokePremium db1 p.userId now
        (.ok, db2)
  else (.ok, db)

/-- POST /paypal. Steps in source order: missing transmission id → 400; replay
guard on the `paypal_webhooks` table → early 200 with no further read or
write; signature verification (`sigValid` is what
`verifyWebhookSignature` returns) → 401 with nothing persisted; insert the
audit row; dispatch by event type; answer 200. -/
def handleWebhook (db : DB) (req : WebhookReq) (sigValid : Bool) (now : Int)
    (freshPremiumId : String) : WebhookResult × DB :=
  match req.transmissionId with
  | none => (.badRequest, db)
  | some tid =>
    if db.webhooks.any (fun w => w.transmissionId == tid) then
      (.duplicate, db)
    else if !sigValid then
      (.unauthorized, db)
    else
      dispatchEvent (insertWebhookRow db tid req now) req now freshPremiumId

/-! ## Concrete states used by the claim theorems -/

/-- A pending monthly order for principal u1, as create-order would write it. -/
def samplePending : Payment :=
  ⟨"p1", "u1", "o1", none, .monthly, tierPrice .monthly, "USD", .pending, "k1",
    0, none, none⟩

/-- Store holding exactly the pending order `samplePending`. -/
def pendingDB : DB := ⟨[samplePending], [], [], []⟩

/-- Completed variant of `samplePending`, as a successful capture leaves it. -/
def sampleCompleted : Payment :=
  { samplePending with
      status := .completed, paypalCaptureId := some "cap0",
      completedAt := some 100, expiresAt := some 2592000100 }

/-- Store holding the already-completed order and its granted entitlement. -/
def completedDB : DB :=
  ⟨[sampleCompleted], [⟨"pr0", "u1", true, some .monthly, some 100,
    some 2592000100, 100, 100⟩], [], []⟩

/-- Refund notification whose related order id is `o1`. -/
def refundReq : WebhookReq :=
  ⟨some "t1", some "tt", "PAYMENT.CAPTURE.REFUNDED", some "refund", some "r9",
    none, some "o1"⟩

/-- Capture-completed notification for order `o1` with the correct monthly amount. -/
def completedReq : WebhookReq :=
  ⟨some "t2", some "tt", "PAYMENT.CAPTURE.COMPLETED", some "capture", some "cap7",
    some (tierPrice .monthly), some "o1"⟩

/-- Modelled from the spec for comparison (C9): number of RateLimitAttempt rows
for (principal, action) with attempted-at within the closed trailing window
`[now - windowSeconds, now]`, as the spec's algorithm sentence words it. -/
def specWindowCount (db : DB) (userId action : String) (windowSeconds now : Int) : Nat :=
  (db.rateLimits.filter (fun r => r.userId == userId && r.action == action &&
    decide (now - windowSeconds * 1000 ≤ r.attemptedAt) &&
    decide (r.attemptedAt ≤ now))).length

/-- C1 (counterexample): the completed transition and the entitlement upsert of
the capture handler are two separate store writes, not one transactional unit.
The successful capture execution from `pendingDB` factors through the
intermediate state `markCompleted pendingDB …` (first conjunct), and that
intermediate state differs from both the pre-state and the post-state: in it
the order is already `completed` while the entitlement table is still empty —
the two writes are separately observable, contrary to the claim. -/
theorem capture_writes_separately_observable :
    (captureOrder pendingDB "u1" "o1" 1000 (some ⟨"cap1", 499⟩) "prem1").db =
      upsertPremium (markCompleted pendingDB "p1" (some "cap1") 1000 2592001000)
        "u1" .monthly 1000 2592001000 "prem1"
    ∧ markCompleted pendingDB "p1" (some "cap1") 1000 2592001000 ≠ pendingDB
    ∧ markCompleted pendingDB "p1" (some "cap1") 1000 2592001000 ≠
        (captureOrder pendingDB "u1" "o1" 1000 (some ⟨"cap1", 499⟩) "prem1").db
    ∧ (markCompleted pendingDB "p1" (some "cap1") 1000 2592001000).payments =
        [{ samplePending with
             status := .completed, paypalCaptureId := some "cap1",
             completedAt := some 1000, expiresAt := some 2592001000 }]
    ∧ (markCompleted pendingDB "p1" (some "cap1") 1000 2592001000).premium = [] := by
  decide

/-- C2 (counterexample): a refund notification for a *pending* order moves it
to `refunded` — the refund branch checks only that the payment row exists, not
that its status is `completed`, so the pending → refunded transition the claim
rules out does happen. -/
theorem refund_moves_pending_to_refunded :
    samplePending.status = .pending
    ∧ (handleWebhook pendingDB refundReq true 500 "prem9").2.payments =
        [{ samplePending with status := .refunded }] := by
  decide

/-- C6 (counterexample): replaying capture on the already-completed order `o1`
yields the 400 `'Payment already processed'` error response — not a success
response derived from the completed row as the claim states — though it indeed
leaves the store untouched. -/
theorem capture_replay_returns_error_response :
    (captureOrder completedDB "u1" "o1" 5000 (some ⟨"cap1", 499⟩) "prem1").result =
      .alreadyProcessed
    ∧ captureStatusCode .alreadyProcessed = 400
    ∧ (captureOrder completedDB "u1" "o1" 5000 (some ⟨"cap1", 499⟩) "prem1").db =
        completedDB := by
  decide

/-- C7 (counterexample): a create-order request with an invalid tier, sent
against an empty store, is rejected with the validation error but still leaves
a durable RateLimitAttempt row — the rate limiter runs and records before tier
validation, contrary to the claim's "no other durable write (including no
rate-limit attempt record)". -/
theorem invalid_tier_still_records_attempt :
    (createOrder ⟨[], [], [], []⟩ "u1" none "k1" 0 "a1" (some "o1") "p1").result =
      .invalidTier
    ∧ (createOrder ⟨[], [], [], []⟩ "u1" none "k1" 0 "a1" (some "o1") "p1").db.rateLimits =
        [⟨"a1", "u1", "create_payment", 0⟩] := by
  decide

/-- C9 (counterexample): an attempt row timestamped exactly `now - windowSeconds`
lies within the claim's closed window `[now - windowSeconds, now]`, so with
`maxAttempts = 1` the claim demands `allow` return false without recording; the
code counts with strict `gt`, sees zero attempts, inserts a second row and
returns true. -/
theorem rate_limit_window_boundary_excluded :
    specWindowCount ⟨[], [], [], [⟨"a", "u", "create_payment", -3600000⟩]⟩
      "u" "create_payment" 3600 0 = 1
    ∧ (checkRateLimit ⟨[], [], [], [⟨"a", "u", "create_payment", -3600000⟩]⟩
        "u" "create_payment" 1 3600 0 "b").1 = true
    ∧ (checkRateLimit ⟨[], [], [], [⟨"a", "u", "create_payment", -3600000⟩]⟩
        "u" "create_payment" 1 3600 0 "b").2.rateLimits.length = 2 := by
  decide

/-! ## Helper lemmas -/

/-- setPaymentStatus touches only the payments table. -/
theorem setPaymentStatus_webhooks (db : DB) (pid : String) (s : PayStatus) :
    (setPaymentStatus db pid s).webhooks = db.webhooks := rfl

/-- markCompleted touches only the payments table. -/
theorem markCompleted_webhooks (db : DB) (pid : String) (cid : Option String)
    (now exp : Int) : (markCompleted db pid cid now exp).webhooks = db.webhooks := rfl

/-- upsertPremium touches only the premium table. -/
theorem upsertPremium_webhooks (db : DB) (u : String) (tier : Tier) (now exp : Int)
    (fid : String) : (upsertPremium db u tier now exp fid).webhooks = db.webhooks := by
  unfold upsertPremium
  split <;> rfl

/-- revokePremium touches only the premium table. -/
theorem revokePremium_webhooks (db : DB) (u : String) (now : Int) :
    (revokePremium db u now).webhooks = db.webhooks := rfl

/-- The event dispatch never writes the audit table. -/
theorem dispatchEvent_webhooks (db : DB) (req : WebhookReq) (now : Int) (fid : String) :
    (dispatchEvent db req now fid).2.webhooks = db.webhooks := by
  unfold dispatchEvent
  repeat' split
  all_goals simp [setPaymentStatus_webhooks, markCompleted_webhooks,
    upsertPremium_webhooks, revokePremium_webhooks]

/-- C6: calling capture on an order whose status is not `pending` yields the
`alreadyProcessed` outcome with the store untouched and no gateway call — but
that outcome is the 400 `'Payment already processed'` error response, not an
idempotent success (see the counterexample for the success-response part the
claim had). -/
theorem capture_nonpending_no_mutation (db : DB) (p : Payment)
    (userId orderId : String) (now : Int) (gw : Option CaptureResp) (fid : String)
    (hfind : findPayment db userId orderId = some p) (hs : p.status ≠ .pending) :
    captureOrder db userId orderId now gw fid = ⟨.alreadyProcessed, db, false⟩
    ∧ captureStatusCode .alreadyProcessed = 400 := by
  constructor
  · unfold captureOrder
    rw [hfind]
    simp [hs]
  · rfl

/-- C6 witness: replaying capture on the concrete completed order `o1`. -/
theorem capture_nonpending_no_mutation_witness :
    captureOrder completedDB "u1" "o1" 5000 (some ⟨"cap1", 499⟩) "prem1" =
      ⟨.alreadyProcessed, completedDB, false⟩ :=
  (capture_nonpending_no_mutation completedDB sampleCompleted "u1" "o1" 5000
    (some ⟨"cap1", 499⟩) "prem1" (by decide) (by decide)).1

/-- C8: a webhook delivery with a fresh transmission id whose signature fails
verification is answered 401 with the store completely untouched (no audit row,
no payment or entitlement mutation); and since the signature is only checked
after the replay guard, a duplicate transmission id is answered 200 with the
store untouched even when the signature is invalid. -/
theorem webhook_bad_signature_rejected (db : DB) (req : WebhookReq) (tid : String)
    (now : Int) (fid : String) (hid : req.transmissionId = some tid) :
    (db.webhooks.any (fun w => w.transmissionId == tid) = false →
      handleWebhook db req false now fid = (.unauthorized, db))
    ∧ (db.webhooks.any (fun w => w.transmissionId == tid) = true →
      handleWebhook db req false now fid = (.duplicate, db))
    ∧ webhookStatusCode .unauthorized = 401 := by
  refine ⟨?_, ?_, rfl⟩ <;> intro h <;> ·
    unfold handleWebhook
    rw [hid]
    simp [h]

/-- C8 witness: invalid signature on a fresh delivery id against `pendingDB`,
and on a replayed one after that delivery was accepted. -/
theorem webhook_bad_signature_rejected_witness :
    handleWebhook pendingDB completedReq false 500 "prem9" =
      (.unauthorized, pendingDB) :=
  (webhook_bad_signature_rejected pendingDB completedReq "t2" 500 "prem9"
    rfl).1 (by decide)

/-- C10: when a PaymentOrder row for (principal, idempotencyKey) already
exists, create-order returns its stored gateway order id, amount and tier with
no gateway call, even though the principal holds an active entitlement with a
future expiry — the idempotency lookup runs before the entitlement guard, so
`AlreadyEntitled` cannot fire on the replay path. -/
theorem idempotent_replay_before_entitlement_guard (db : DB) (p : Payment)
    (q : Premium) (u k : String) (tier : Tier) (now : Int) (aid : String)
    (gw : Option String) (pid : String)
    (hrl : db.rateLimits = [])
    (hp : (db.payments.filter
      (fun r => r.userId == u && r.idempotencyKey == k)).head? = some p)
    (hq : db.premium = [q]) (hqu : q.userId = u) (hqp : q.isPremium = true)
    (hqe : q.expiresAt = some (now + 1)) :
    createOrder db u (some tier) k now aid gw pid =
      ⟨.idempotent p.paypalOrderId p.amount p.tier,
        { db with rateLimits := [⟨aid, u, "create_payment", now⟩] }, false⟩ := by
  unfold createOrder checkRateLimit
  simp [hrl, hp]

/-- C10 witness: replaying (u1, k1) while u1 holds an entitlement active far in
the future returns the stored order o1, not `AlreadyEntitled`. -/
theorem idempotent_replay_before_entitlement_guard_witness :
    createOrder ⟨[samplePending], [⟨"pr0", "u1", true, some .monthly, some 100,
        some 1001, 100, 100⟩], [], []⟩ "u1" (some .monthly) "k1" 1000 "a1"
      (some "oX") "pX" =
      ⟨.idempotent "o1" 499 .monthly,
        ⟨[samplePending], [⟨"pr0", "u1", true, some .monthly, some 100,
          some 1001, 100, 100⟩], [],
          [⟨"a1", "u1", "create_payment", 1000⟩]⟩, false⟩ :=
  idempotent_replay_before_entitlement_guard _ samplePending
    ⟨"pr0", "u1", true, some .monthly, some 100, some 1001, 100, 100⟩
    "u1" "k1" .monthly 1000 "a1" (some "oX") "pX" rfl (by decide) rfl rfl rfl rfl

/-- C4: replaying the identical transmission id results in exactly one
WebhookDelivery row: the first (signature-valid, fresh-id) delivery inserts
exactly one audit row for the id, and any second delivery carrying the same id
returns the early 200 with the store byte-for-byte unchanged — no reprocessing,
no further payment or entitlement write. -/
theorem webhook_replay_idempotent (db : DB) (req req2 : WebhookReq) (tid : String)
    (sig2 : Bool) (t1 t2 : Int) (f1 f2 : String)
    (hid : req.transmissionId = some tid) (hid2 : req2.transmissionId = some tid)
    (hfresh : db.webhooks.any (fun w => w.transmissionId == tid) = false) :
    ((handleWebhook db req true t1 f1).2.webhooks.filter
        (fun w => w.transmissionId == tid)).length = 1
    ∧ handleWebhook (handleWebhook db req true t1 f1).2 req2 sig2 t2 f2 =
        (.duplicate, (handleWebhook db req true t1 f1).2) := by
  have hw : (handleWebhook db req true t1 f1).2.webhooks =
      db.webhooks ++ [⟨tid, tid, req.transmissionTime.getD "", req.eventType,
        req.resourceType, req.resourceId, true, some t1, t1⟩] := by
    unfold handleWebhook
    rw [hid]
    simp [hfresh, dispatchEvent_webhooks, insertWebhookRow]
  have hnil : db.webhooks.filter (fun w => w.transmissionId == tid) = [] := by
    rw [List.filter_eq_nil_iff]
    intro a ha
    have := List.any_eq_false.mp hfresh a ha
    simpa using this
  refine ⟨?_, ?_⟩
  · rw [hw, List.filter_append, hnil]
    simp
  · conv_lhs => rw [handleWebhook]
    rw [hid2, hw]
    simp

/-- C4 witness: delivering the capture-completed notification `t2` to
`pendingDB` and then replaying the same transmission id. -/
theorem webhook_replay_idempotent_witness :
    ((handleWebhook pendingDB completedReq true 500 "prem9").2.webhooks.filter
        (fun w => w.transmissionId == "t2")).length = 1
    ∧ handleWebhook (handleWebhook pendingDB completedReq true 500 "prem9").2
        completedReq true 700 "prem10" =
        (.duplicate, (handleWebhook pendingDB completedReq true 500 "prem9").2) :=
  webhook_replay_idempotent pendingDB completedReq completedReq "t2" true 500 700
    "prem9" "prem10" rfl rfl (by decide)

/-- C3: capturing a pending order compares the amount read back from the
gateway's capture response against the canonical price of the order's stored
tier. On mismatch the order is marked `failed`, the `AmountMismatch` (400)
error is returned and the entitlement table is untouched; on match the order
becomes `completed` with the capture id, completed-at `now` and expiry
`now + 30 days` (monthly) or `now + 365 days` (yearly), and the principal's
entitlement row is upserted (inserted when absent, updated in place when
present) to active with that same tier and expiry. -/
theorem capture_amount_check_correct (p : Payment) (q : Premium)
    (prem : List Premium) (w : List WebhookRow) (rl : List RateLimitRow)
    (cid : String) (amt : Int) (now : Int) (fid : String)
    (hp : p.status = .pending) (hqu : q.userId = p.userId) :
    (amt ≠ tierPrice p.tier →
      captureOrder ⟨[p], prem, w, rl⟩ p.userId p.paypalOrderId now
          (some ⟨cid, amt⟩) fid =
        ⟨.amountMismatch, ⟨[{ p with status := .failed }], prem, w, rl⟩, true⟩
        ∧ captureStatusCode .amountMismatch = 400)
    ∧ (captureOrder ⟨[p], [], w, rl⟩ p.userId p.paypalOrderId now
          (some ⟨cid, tierPrice p.tier⟩) fid =
        ⟨.success (now + tierDays p.tier * msPerDay) p.tier,
          ⟨[{ p with
              status := .completed, paypalCaptureId := some cid,
              completedAt := some now,
              expiresAt := some (now + tierDays p.tier * msPerDay) }],
            [⟨fid, p.userId, true, some p.tier, some now,
              some (now + tierDays p.tier * msPerDay), now, now⟩], w, rl⟩, true⟩)
    ∧ (captureOrder ⟨[p], [q], w, rl⟩ p.userId p.paypalOrderId now
          (some ⟨cid, tierPrice p.tier⟩) fid =
        ⟨.success (now + tierDays p.tier * msPerDay) p.tier,
          ⟨[{ p with
              status := .completed, paypalCaptureId := some cid,
              completedAt := some now,
              expiresAt := some (now + tierDays p.tier * msPerDay) }],
            [{ q with
               isPremium := true, tier := some p.tier, startedAt := some now,
               expiresAt := some (now + tierDays p.tier * msPerDay),
               updatedAt := now }], w, rl⟩, true⟩) := by
  refine ⟨fun hmm => ⟨?_, rfl⟩, ?_, ?_⟩
  · unfold captureOrder findPayment
    simp [hp, setPaymentStatus, hmm]
  · unfold captureOrder findPayment
    simp [hp, markCompleted, upsertPremium]
  · unfold captureOrder findPayment
    simp [hp, markCompleted, upsertPremium, hqu]

/-- C3 witness: capturing the pending monthly order `o1` with a wrong charged
amount (500 cents) marks it failed and touches no entitlement; capturing it
with the canonical 499 cents completes it and grants the entitlement expiring
30 days later. -/
theorem capture_amount_check_correct_witness :
    (captureOrder ⟨[samplePending], [], [], []⟩ "u1" "o1" 1000
        (some ⟨"cap1", 500⟩) "prem1" =
      ⟨.amountMismatch,
        ⟨[{ samplePending with status := .failed }], [], [], []⟩, true⟩)
    ∧ (captureOrder ⟨[samplePending], [], [], []⟩ "u1" "o1" 1000
        (some ⟨"cap1", 499⟩) "prem1" =
      ⟨.success 2592001000 .monthly,
        ⟨[⟨"p1", "u1", "o1", some "cap1", .monthly, 499, "USD", .completed,
            "k1", 0, some 1000, some 2592001000⟩],
          [⟨"prem1", "u1", true, some .monthly, some 1000, some 2592001000,
            1000, 1000⟩], [], []⟩, true⟩) :=
  ⟨((capture_amount_check_correct samplePending
      ⟨"pr0", "u1", true, some .monthly, some 100, some 1001, 100, 100⟩
      [] [] [] "cap1" 500 1000 "prem1" rfl rfl).1 (by decide)).1,
    (capture_amount_check_correct samplePending
      ⟨"pr0", "u1", true, some .monthly, some 100, some 1001, 100, 100⟩
      [] [] [] "cap1" 499 1000 "prem1" rfl rfl).2.1⟩

/-- When the strict-window attempt count is below the bound, the limiter
admits and appends exactly one attempt row. -/
theorem checkRateLimit_admits (db : DB) (u a : String) (m : Nat) (w now : Int)
    (aid : String)
    (h : (db.rateLimits.filter (fun r => r.userId == u && r.action == a &&
      decide (now - w * 1000 < r.attemptedAt))).length < m) :
    checkRateLimit db u a m w now aid =
      (true, { db with rateLimits := db.rateLimits ++ [⟨aid, u, a, now⟩] }) := by
  unfold checkRateLimit
  rw [if_neg (by omega)]

/-- C9 (amended): the rate limiter counts attempt rows for (principal, action)
whose attempted-at is strictly greater than `now - windowSeconds` (no upper
bound) — not the closed window of the claim, see the counterexample. If that
count is at least maxAttempts it returns false without recording; otherwise it
inserts exactly one attempt row and returns true. On the create-order path a
principal at or over the 5-per-3600s bound receives the 429 RateLimited
response with the store unchanged — no gateway call, no ledger write. -/
theorem rate_limit_behavior (db : DB) (u a : String) (maxAttempts : Nat)
    (w now : Int) (aid k pid : String) (rt : Option Tier) (gw : Option String) :
    (maxAttempts ≤ (db.rateLimits.filter (fun r => r.userId == u && r.action == a &&
        decide (now - w * 1000 < r.attemptedAt))).length →
      checkRateLimit db u a maxAttempts w now aid = (false, db))
    ∧ ((db.rateLimits.filter (fun r => r.userId == u && r.action == a &&
        decide (now - w * 1000 < r.attemptedAt))).length < maxAttempts →
      checkRateLimit db u a maxAttempts w now aid =
        (true, { db with rateLimits := db.rateLimits ++ [⟨aid, u, a, now⟩] }))
    ∧ (5 ≤ (db.rateLimits.filter (fun r => r.userId == u &&
        r.action == "create_payment" &&
        decide (now - 3600 * 1000 < r.attemptedAt))).length →
      createOrder db u rt k now aid gw pid = ⟨.rateLimited, db, false⟩
        ∧ createStatusCode .rateLimited = 429) := by
  refine ⟨fun h => ?_, fun h => ?_, fun h => ⟨?_, rfl⟩⟩
  · unfold checkRateLimit
    simp only [if_pos h]
  · unfold checkRateLimit
    rw [if_neg (by omega)]
  · unfold createOrder checkRateLimit
    simp only [if_pos h]
    simp

/-- C9 witness: with five fresh attempts already recorded in the last hour, the
limiter denies without recording and create-order answers 429 untouched. -/
theorem rate_limit_behavior_witness :
    checkRateLimit ⟨[], [], [], [⟨"a1", "u", "create_payment", 1⟩,
        ⟨"a2", "u", "create_payment", 2⟩, ⟨"a3", "u", "create_payment", 3⟩,
        ⟨"a4", "u", "create_payment", 4⟩, ⟨"a5", "u", "create_payment", 5⟩]⟩
      "u" "create_payment" 5 3600 10 "a6" =
      (false, ⟨[], [], [], [⟨"a1", "u", "create_payment", 1⟩,
        ⟨"a2", "u", "create_payment", 2⟩, ⟨"a3", "u", "create_payment", 3⟩,
        ⟨"a4", "u", "create_payment", 4⟩, ⟨"a5", "u", "create_payment", 5⟩]⟩)
    ∧ createOrder ⟨[], [], [], [⟨"a1", "u", "create_payment", 1⟩,
        ⟨"a2", "u", "create_payment", 2⟩, ⟨"a3", "u", "create_payment", 3⟩,
        ⟨"a4", "u", "create_payment", 4⟩, ⟨"a5", "u", "create_payment", 5⟩]⟩
      "u" (some .monthly) "k" 10 "a6" (some "o9") "p9" =
      ⟨.rateLimited, ⟨[], [], [], [⟨"a1", "u", "create_payment", 1⟩,
        ⟨"a2", "u", "create_payment", 2⟩, ⟨"a3", "u", "create_payment", 3⟩,
        ⟨"a4", "u", "create_payment", 4⟩, ⟨"a5", "u", "create_payment", 5⟩]⟩,
        false⟩ :=
  ⟨(rate_limit_behavior _ "u" "create_payment" 5 3600 10 "a6" "k" "p9"
      (some .monthly) (some "o9")).1 (by decide),
    ((rate_limit_behavior _ "u" "create_payment" 5 3600 10 "a6" "k" "p9"
      (some .monthly) (some "o9")).2.2 (by decide)).1⟩

/-- C7 (amended): a create-order request with a tier outside
`{monthly, yearly}` is rejected 400 with no gateway call, no PaymentOrder row
and no entitlement write — but only after the rate limiter has already durably
recorded an attempt row, since rate limiting runs before validation (see the
counterexample); and an empty idempotencyKey is not validated at all: with a
valid tier it proceeds to create a gateway order. -/
theorem invalid_tier_rejection_effects (db : DB) (u k : String) (now : Int)
    (aid pid gid : String) (gw : Option String) (tier : Tier)
    (hcnt : (db.rateLimits.filter (fun r => r.userId == u &&
      r.action == "create_payment" &&
      decide (now - 3600 * 1000 < r.attemptedAt))).length < 5) :
    (createOrder db u none k now aid gw pid =
      ⟨.invalidTier, { db with rateLimits := db.rateLimits ++
        [⟨aid, u, "create_payment", now⟩] }, false⟩
      ∧ createStatusCode .invalidTier = 400)
    ∧ ((db.payments.filter
          (fun p => p.userId == u && p.idempotencyKey == "")).head? = none →
        db.premium = [] →
        (createOrder db u (some tier) "" now aid (some gid) pid).result =
          .created gid (tierPrice tier) tier) := by
  have hc := checkRateLimit_admits db u "create_payment" 5 3600 now aid hcnt
  refine ⟨⟨?_, rfl⟩, fun hk hprem => ?_⟩
  · unfold createOrder
    rw [hc]
    simp
  · unfold createOrder
    rw [hc]
    simp [hk, hprem]

/-- C7 witness: invalid tier against the empty store is rejected 400 yet
records the attempt row; a valid-tier request with empty idempotency key goes
through to order creation. -/
theorem invalid_tier_rejection_effects_witness :
    (createOrder ⟨[], [], [], []⟩ "u1" none "k1" 0 "a1" (some "o1") "p1" =
      ⟨.invalidTier, ⟨[], [], [], [⟨"a1", "u1", "create_payment", 0⟩]⟩, false⟩)
    ∧ (createOrder ⟨[], [], [], []⟩ "u1" (some .monthly) "" 0 "a1"
        (some "o1") "p1").result = .created "o1" 499 .monthly :=
  ⟨((invalid_tier_rejection_effects ⟨[], [], [], []⟩ "u1" "k1" 0 "a1" "p1" "o1"
      (some "o1") .monthly (by decide)).1).1,
    (invalid_tier_rejection_effects ⟨[], [], [], []⟩ "u1" "k1" 0 "a1" "p1" "o1"
      (some "o1") .monthly (by decide)).2 rfl rfl⟩

/-- C5: calling create-order twice with the same (tier, idempotencyKey) pair
for the same principal — against a store with no prior order for that pair, an
empty attempt table and no entitlement row — returns the same gateway order
id, amount and tier both times, writes exactly one PaymentOrder ledger row
(the pending row of the first call), and issues no gateway call on the second
invocation. -/
theorem create_order_idempotent (db : DB) (u k : String) (tier : Tier)
    (t1 t2 : Int) (a1 a2 pid1 pid2 gid : String) (gw2 : Option String)
    (h1 : db.rateLimits = []) (h2 : db.premium = [])
    (h3 : db.payments.filter (fun p => p.userId == u && p.idempotencyKey == k) = []) :
    (createOrder db u (some tier) k t1 a1 (some gid) pid1).result =
        .created gid (tierPrice tier) tier
    ∧ (createOrder (createOrder db u (some tier) k t1 a1 (some gid) pid1).db
          u (some tier) k t2 a2 gw2 pid2).result =
        .idempotent gid (tierPrice tier) tier
    ∧ (createOrder (createOrder db u (some tier) k t1 a1 (some gid) pid1).db
          u (some tier) k t2 a2 gw2 pid2).gatewayCalled = false
    ∧ (createOrder (createOrder db u (some tier) k t1 a1 (some gid) pid1).db
          u (some tier) k t2 a2 gw2 pid2).db.payments =
        db.payments ++ [⟨pid1, u, gid, none, tier, tierPrice tier, "USD",
          .pending, k, t1, none, none⟩] := by
  have hc1 := checkRateLimit_admits db u "create_payment" 5 3600 t1 a1
    (by simp [h1])
  have hout1 : createOrder db u (some tier) k t1 a1 (some gid) pid1 =
      ⟨.created gid (tierPrice tier) tier,
        { db with
            payments := db.payments ++ [⟨pid1, u, gid, none, tier,
              tierPrice tier, "USD", .pending, k, t1, none, none⟩],
            rateLimits := db.rateLimits ++ [⟨a1, u, "create_payment", t1⟩] },
        true⟩ := by
    unfold createOrder
    rw [hc1]
    simp [h2, h3]
  have hc2 := checkRateLimit_admits
    ({ db with
        payments := db.payments ++ [⟨pid1, u, gid, none, tier,
          tierPrice tier, "USD", .pending, k, t1, none, none⟩],
        rateLimits := db.rateLimits ++ [⟨a1, u, "create_payment", t1⟩] } : DB)
    u "create_payment" 5 3600 t2 a2
    (by
      have hlen := List.length_filter_le
        (fun r : RateLimitRow => r.userId == u && r.action == "create_payment" &&
          decide (t2 - 3600 * 1000 < r.attemptedAt))
        (db.rateLimits ++ [⟨a1, u, "create_payment", t1⟩])
      simp [h1] at hlen ⊢
      omega)
  have hout2 : createOrder
      ({ db with
          payments := db.payments ++ [⟨pid1, u, gid, none, tier,
            tierPrice tier, "USD", .pending, k, t1, none, none⟩],
          rateLimits := db.rateLimits ++ [⟨a1, u, "create_payment", t1⟩] } : DB)
      u (some tier) k t2 a2 gw2 pid2 =
      ⟨.idempotent gid (tierPrice tier) tier,
        { db with
            payments := db.payments ++ [⟨pid1, u, gid, none, tier,
              tierPrice tier, "USD", .pending, k, t1, none, none⟩],
            rateLimits := db.rateLimits ++ [⟨a1, u, "create_payment", t1⟩,
              ⟨a2, u, "create_payment", t2⟩] },
        false⟩ := by
    unfold createOrder
    rw [hc2]
    simp [List.filter_append, h3]
  rw [hout1, hout2]
  simp [hout1]

/-- C5 witness: two create-order calls with (monthly, k1) against the empty
store return order o1 both times and leave exactly one pending ledger row. -/
theorem create_order_idempotent_witness :
    (createOrder ⟨[], [], [], []⟩ "u1" (some .monthly) "k1" 0 "a1"
        (some "o1") "p1").result = .created "o1" 499 .monthly
    ∧ (createOrder (createOrder ⟨[], [], [], []⟩ "u1" (some .monthly) "k1" 0
          "a1" (some "o1") "p1").db "u1" (some .monthly) "k1" 50 "a2"
          (some "oZ") "p2").result = .idempotent "o1" 499 .monthly
    ∧ (createOrder (createOrder ⟨[], [], [], []⟩ "u1" (some .monthly) "k1" 0
          "a1" (some "o1") "p1").db "u1" (some .monthly) "k1" 50 "a2"
          (some "oZ") "p2").gatewayCalled = false
    ∧ (createOrder (createOrder ⟨[], [], [], []⟩ "u1" (some .monthly) "k1" 0
          "a1" (some "o1") "p1").db "u1" (some .monthly) "k1" 50 "a2"
          (some "oZ") "p2").db.payments =
        [⟨"p1", "u1", "o1", none, .monthly, 499, "USD", .pending, "k1", 0,
          none, none⟩] :=
  create_order_idempotent ⟨[], [], [], []⟩ "u1" "k1" .monthly 0 50 "a1" "a2"
    "p1" "p2" "o1" (some "oZ") rfl rfl rfl

/-- upsertPremium touches only the premium table (payments view). -/
theorem upsertPremium_payments (db : DB) (u : String) (tier : Tier)
    (now exp : Int) (fid : String) :
    (upsertPremium db u tier now exp fid).payments = db.payments := by
  unfold upsertPremium
  split <;> rfl

/-- revokePremium touches only the premium table (payments view). -/
theorem revokePremium_payments (db : DB) (u : String) (now : Int) :
    (revokePremium db u now).payments = db.payments := rfl

/-- insertWebhookRow touches only the audit table (payments view). -/
theorem insertWebhookRow_payments (db : DB) (tid : String) (req : WebhookReq)
    (now : Int) : (insertWebhookRow db tid req now).payments = db.payments := rfl

/-- C2 (amended): on a store holding one payment row, create-order never
mutates the existing row (it only ever appends a fresh pending one); capture
moves the row's status only along pending → completed or pending → failed; a
webhook delivery moves it only along pending → completed — except that the
refund branch sets `refunded` whatever the current status is, which is the one
departure from the claim's forward-only discipline (see the counterexample for
the pending → refunded instance). -/
theorem status_transition_discipline (p : Payment) (prem : List Premium)
    (w : List WebhookRow) (rl : List RateLimitRow)
    (uid oid k aid pid fid : String) (rt : Option Tier) (gwo : Option String)
    (gwc : Option CaptureResp) (req : WebhookReq) (sig : Bool) (now : Int) :
    ((createOrder ⟨[p], prem, w, rl⟩ uid rt k now aid gwo pid).db.payments.head? =
      some p)
    ∧ ((captureOrder ⟨[p], prem, w, rl⟩ uid oid now gwc fid).db.payments.map
          (fun r => r.status) = [p.status]
        ∨ (p.status = .pending ∧
            ((captureOrder ⟨[p], prem, w, rl⟩ uid oid now gwc fid).db.payments.map
                (fun r => r.status) = [.completed]
              ∨ (captureOrder ⟨[p], prem, w, rl⟩ uid oid now gwc fid).db.payments.map
                  (fun r => r.status) = [.failed])))
    ∧ ((handleWebhook ⟨[p], prem, w, rl⟩ req sig now fid).2.payments.map
          (fun r => r.status) = [p.status]
        ∨ (p.status = .pending ∧
            (handleWebhook ⟨[p], prem, w, rl⟩ req sig now fid).2.payments.map
              (fun r => r.status) = [.completed])
        ∨ (handleWebhook ⟨[p], prem, w, rl⟩ req sig now fid).2.payments.map
            (fun r => r.status) = [.refunded]) := by
  have hcr : checkRateLimit ⟨[p], prem, w, rl⟩ uid "create_payment" 5 3600 now aid =
        (false, ⟨[p], prem, w, rl⟩)
      ∨ checkRateLimit ⟨[p], prem, w, rl⟩ uid "create_payment" 5 3600 now aid =
        (true, ⟨[p], prem, w, rl ++ [⟨aid, uid, "create_payment", now⟩]⟩) := by
    unfold checkRateLimit
    by_cases hif : 5 ≤ (rl.filter (fun r => r.userId == uid &&
        r.action == "create_payment" &&
        decide (now - 3600000 < r.attemptedAt))).length
    · exact Or.inl (by simp [hif])
    · exact Or.inr (by simp [hif])
  refine ⟨?_, ?_, ?_⟩
  · unfold createOrder
    rcases hcr with h | h <;> rw [h] <;>
      · repeat' split
        all_goals by_cases hc : p.userId = uid ∧ p.idempotencyKey = k
        all_goals try simp [hc]
        all_goals split <;> simp
  · unfold captureOrder findPayment
    by_cases hm : (p.paypalOrderId == oid && p.userId == uid) = true
    · by_cases hp : p.status = .pending
      · cases gwc with
        | none => simp [hm, hp]
        | some cap =>
          by_cases ha : cap.amount = tierPrice p.tier
          · right
            refine ⟨hp, Or.inl ?_⟩
            simp [hm, hp, ha, upsertPremium_payments, markCompleted]
          · right
            refine ⟨hp, Or.inr ?_⟩
            simp [hm, hp, ha, setPaymentStatus]
      · simp [hm, hp]
    · have hcond : ¬(p.paypalOrderId = oid ∧ p.userId = uid) := by
        intro hand
        exact hm (by simp [hand.1, hand.2])
      simp [hcond]
  · unfold handleWebhook
    cases hid : req.transmissionId with
    | none => simp
    | some tid =>
      by_cases hdup : (⟨[p], prem, w, rl⟩ : DB).webhooks.any
          (fun x => x.transmissionId == tid) = true
      · simp [hdup]
      · cases sig with
        | false => simp [hdup]
        | true =>
          simp only [hdup, Bool.not_true, Bool.false_eq_true, if_false,
            Bool.not_false, if_true]
          unfold dispatchEvent
          by_cases hev : req.eventType == "PAYMENT.CAPTURE.COMPLETED"
          · cases hoid : req.relatedOrderId with
            | none => simp [hev, hoid, insertWebhookRow_payments]
            | some oid' =>
              by_cases hm : (p.paypalOrderId == oid') = true
              · by_cases hp : p.status = .pending
                · cases hamt : req.resourceAmount with
                  | none => simp [hev, hoid, hm, hp, hamt, insertWebhookRow]
                  | some amt =>
                    by_cases ha : amt = tierPrice p.tier
                    · right; left
                      refine ⟨hp, ?_⟩
                      simp [hev, hoid, hm, hp, hamt, ha, insertWebhookRow,
                        upsertPremium_payments, markCompleted]
                    · simp [hev, hoid, hm, hp, hamt, ha, insertWebhookRow]
                · simp [hev, hoid, hm, hp, insertWebhookRow]
              · simp at hm
                simp [hev, hoid, hm, insertWebhookRow]
          · by_cases hev2 : req.eventType == "PAYMENT.CAPTURE.REFUNDED"
            · cases hoid : req.relatedOrderId with
              | none => simp [hev, hev2, hoid, insertWebhookRow_payments]
              | some oid' =>
                by_cases hm : (p.paypalOrderId == oid') = true
                · right; right
                  simp [hev, hev2, hoid, hm, insertWebhookRow,
                    revokePremium_payments, setPaymentStatus]
                · simp at hm
                  simp [hev, hev2, hoid, hm, insertWebhookRow]
            · simp [hev, hev2, insertWebhookRow_payments]

/-- C1 (amended): with each handler run to completion atomically, capture and
the corresponding capture-completed webhook on a pending order commute into
exactly one completed transition and exactly one entitlement grant in either
order: the first arrival completes the order and grants the entitlement, and
the second arrival changes neither the payments nor the premium table (capture
answers the already-processed error untouched; the webhook only appends its
audit row and acks). The claim's stronger guarantee — that the completed
transition and the grant form one atomic transactional unit — does not hold:
the two writes are separate store operations (see the counterexample). -/
theorem capture_webhook_race_exactly_once (p : Payment) (rl : List RateLimitRow)
    (t1 t2 : Int) (cid wcid tid tt : String) (rty : Option String)
    (f1 f2 : String) (hp : p.status = .pending) :
    (captureOrder ⟨[p], [], [], rl⟩ p.userId p.paypalOrderId t1
        (some ⟨cid, tierPrice p.tier⟩) f1 =
      ⟨.success (t1 + tierDays p.tier * msPerDay) p.tier,
        ⟨[{ p with
            status := .completed, paypalCaptureId := some cid,
            completedAt := some t1,
            expiresAt := some (t1 + tierDays p.tier * msPerDay) }],
          [⟨f1, p.userId, true, some p.tier, some t1,
            some (t1 + tierDays p.tier * msPerDay), t1, t1⟩], [], rl⟩, true⟩)
    ∧ (handleWebhook
        ⟨[{ p with
            status := .completed, paypalCaptureId := some cid,
            completedAt := some t1,
            expiresAt := some (t1 + tierDays p.tier * msPerDay) }],
          [⟨f1, p.userId, true, some p.tier, some t1,
            some (t1 + tierDays p.tier * msPerDay), t1, t1⟩], [], rl⟩
        ⟨some tid, some tt, "PAYMENT.CAPTURE.COMPLETED", rty, some wcid,
          some (tierPrice p.tier), some p.paypalOrderId⟩ true t2 f2 =
      (.ok,
        ⟨[{ p with
            status := .completed, paypalCaptureId := some cid,
            completedAt := some t1,
            expiresAt := some (t1 + tierDays p.tier * msPerDay) }],
          [⟨f1, p.userId, true, some p.tier, some t1,
            some (t1 + tierDays p.tier * msPerDay), t1, t1⟩],
          [⟨tid, tid, tt, "PAYMENT.CAPTURE.COMPLETED", rty, some wcid, true,
            some t2, t2⟩], rl⟩))
    ∧ (handleWebhook ⟨[p], [], [], rl⟩
        ⟨some tid, some tt, "PAYMENT.CAPTURE.COMPLETED", rty, some wcid,
          some (tierPrice p.tier), some p.paypalOrderId⟩ true t2 f2 =
      (.ok,
        ⟨[{ p with
            status := .completed, paypalCaptureId := some wcid,
            completedAt := some t2,
            expiresAt := some (t2 + tierDays p.tier * msPerDay) }],
          [⟨f2, p.userId, true, some p.tier, some t2,
            some (t2 + tierDays p.tier * msPerDay), t2, t2⟩],
          [⟨tid, tid, tt, "PAYMENT.CAPTURE.COMPLETED", rty, some wcid, true,
            some t2, t2⟩], rl⟩))
    ∧ (captureOrder
        ⟨[{ p with
            status := .completed, paypalCaptureId := some wcid,
            completedAt := some t2,
            expiresAt := some (t2 + tierDays p.tier * msPerDay) }],
          [⟨f2, p.userId, true, some p.tier, some t2,
            some (t2 + tierDays p.tier * msPerDay), t2, t2⟩],
          [⟨tid, tid, tt, "PAYMENT.CAPTURE.COMPLETED", rty, some wcid, true,
            some t2, t2⟩], rl⟩
        p.userId p.paypalOrderId t1 (some ⟨cid, tierPrice p.tier⟩) f1 =
      ⟨.alreadyProcessed,
        ⟨[{ p with
            status := .completed, paypalCaptureId := some wcid,
            completedAt := some t2,
            expiresAt := some (t2 + tierDays p.tier * msPerDay) }],
          [⟨f2, p.userId, true, some p.tier, some t2,
            some (t2 + tierDays p.tier * msPerDay), t2, t2⟩],
          [⟨tid, tid, tt, "PAYMENT.CAPTURE.COMPLETED", rty, some wcid, true,
            some t2, t2⟩], rl⟩, false⟩) := by
  refine ⟨?_, ?_, ?_, ?_⟩
  · unfold captureOrder findPayment
    simp [hp, markCompleted, upsertPremium]
  · unfold handleWebhook dispatchEvent insertWebhookRow
    simp
  · unfold handleWebhook dispatchEvent insertWebhookRow
    simp [hp, markCompleted, upsertPremium]
  · unfold captureOrder findPayment
    simp

/-- C1 witness: the race theorem instantiated on the concrete pending monthly
order o1 — capture first completes it and grants the entitlement. -/
theorem capture_webhook_race_exactly_once_witness :
    captureOrder ⟨[samplePending], [], [], []⟩ "u1" "o1" 1000
        (some ⟨"capA", 499⟩) "g1" =
      ⟨.success 2592001000 .monthly,
        ⟨[⟨"p1", "u1", "o1", some "capA", .monthly, 499, "USD", .completed,
            "k1", 0, some 1000, some 2592001000⟩],
          [⟨"g1", "u1", true, some .monthly, some 1000, some 2592001000,
            1000, 1000⟩], [], []⟩, true⟩ :=
  (capture_webhook_race_exactly_once samplePending [] 1000 2000 "capA" "capB"
    "t9" "tt" (some "capture") "g1" "g2" rfl).1
